import Mathlib

/-!
Shallow embedding of `sdks/python/apache_beam/runners/portability/local_job_service.py`.

The Python module implements a local job control-plane service: `LocalJobServicer`
(the front door, holding a dict of jobs), `BeamJob` (a state machine plus an
execution thread for one pipeline), `JobLogHandler` (per-thread log capture),
and `SubprocessSdkWorker` (worker-subprocess launcher).

Modelling conventions:
- The execution engine call `fn_api_runner.FnApiRunner().run_via_runner_api(...)`
  is opaque per the spec; it is represented by its outcome, an `Except String Unit`
  (returns normally or raises with some failure text).
- Python callbacks registered on a job are queues in disguise (`queue.Queue.put`
  for the streams, `setattr _last_log_message` internally); a subscriber is
  therefore modelled as the list of values it has received, in order.
- Threads are identified by natural numbers; "the current thread" at an `emit`
  is the thread that produced the record, since Python logging invokes handlers
  synchronously on the calling thread.
- Exceptions become `Except`; `try/finally` effects are reified as record fields.
-/

namespace LocalJobService

instance {ε α : Type} [DecidableEq ε] [DecidableEq α] :
    DecidableEq (Except ε α) := fun x y =>
  match x, y with
  | .ok a, .ok b =>
      if h : a = b then .isTrue (by rw [h]) else .isFalse (by simp [h])
  | .ok _, .error _ => .isFalse (by simp)
  | .error _, .ok _ => .isFalse (by simp)
  | .error e, .error f =>
      if h : e = f then .isTrue (by rw [h]) else .isFalse (by simp [h])

/-- `beam_job_api_pb2.JobState` values used by the module. -/
inductive JobState where
  | STARTING
  | RUNNING
  | CANCELLING
  | DONE
  | FAILED
  | CANCELLED
  | STOPPED
  deriving DecidableEq, Repr

/-- `TERMINAL_STATES = [DONE, STOPPED, FAILED, CANCELLED]` (module-level list). -/
def TERMINAL_STATES : List JobState :=
  [.DONE, .STOPPED, .FAILED, .CANCELLED]

/-- `state in TERMINAL_STATES` membership test used throughout the module. -/
def isTerminal (s : JobState) : Bool :=
  decide (s ∈ TERMINAL_STATES)

/-- `self.state not in TERMINAL_STATES` as tested in `BeamJob.cancel`:
`self.state` may be `None` (only during `__init__`), and `None` is not in the
list, so `none` counts as non-terminal. -/
def optIsTerminal : Option JobState → Bool
  | some s => isTerminal s
  | none => false

/-- `beam_job_api_pb2.JobMessage.*` importance levels appearing in
`JobLogHandler.LOG_LEVEL_MAP`. -/
inductive Importance where
  | JOB_MESSAGE_DEBUG
  | JOB_MESSAGE_BASIC
  | JOB_MESSAGE_WARNING
  | JOB_MESSAGE_ERROR
  deriving DecidableEq, Repr

/-- A `beam_job_api_pb2.JobMessage`: id, importance and formatted text
(the wall-clock `time` field is not modelled). -/
structure JobMessage where
  message_id : Nat
  importance : Importance
  message_text : String
  deriving DecidableEq, Repr

/-- A `beam_job_api_pb2.JobMessagesResponse`: either a `message_response`
or a `state_response` (the two oneof branches used by the module). -/
inductive JobMessagesResponse where
  | message (m : JobMessage)
  | state (s : JobState)
  deriving DecidableEq, Repr

/-- `msg.HasField('state_response')` as tested in `GetMessageStream`. -/
def hasStateResponse : JobMessagesResponse → Bool
  | .state _ => true
  | .message _ => false

/-- A `BeamJob` as observable data: its id, stored `_state`, the histories of
values received by each registered state-change callback (in registration
order), the histories received by each externally registered log callback, and
`_last_log_message` (maintained by the internal log callback at index 0 of
`_log_callbacks`). -/
structure BeamJob where
  job_id : String
  _state : Option JobState
  stateSubscribers : List (List JobState)
  logSubscribers : List (List JobMessagesResponse)
  _last_log_message : Option JobMessagesResponse
  deriving DecidableEq, Repr

/-- The `state` property setter: invokes every registered state-change callback
with the new state (in registration order), then stores the new state in
`self._state`. -/
def setState (j : BeamJob) (new_state : JobState) : BeamJob :=
  { j with
    stateSubscribers := j.stateSubscribers.map (fun h => h ++ [new_state])
    _state := some new_state }

/-- `BeamJob.__init__`: `_state = None`, empty callback lists, no last log
message, then `self.state = STARTING` goes through the setter (at which point
no external callbacks are registered). -/
def mkJob (job_id : String) : BeamJob :=
  setState
    { job_id := job_id
      _state := none
      stateSubscribers := []
      logSubscribers := []
      _last_log_message := none }
    .STARTING

/-- `BeamJob.add_state_change_callback(f)`: appends `f` and immediately calls
`f(self.state)`, so the new subscriber's received history starts with the
current state (when one is stored; `self.state` is never `None` once
`__init__` has finished). -/
def add_state_change_callback (j : BeamJob) : BeamJob :=
  { j with stateSubscribers := j.stateSubscribers ++ [j._state.toList] }

/-- `BeamJob.add_log_callback(f)`: appends `f` to `self._log_callbacks`;
nothing is replayed to it. -/
def add_log_callback (j : BeamJob) : BeamJob :=
  { j with logSubscribers := j.logSubscribers ++ [[]] }

/-- Dispatch of one captured log message to `self._log_callbacks` (the loop at
the end of `JobLogHandler.emit`): callback 0 caches it as
`_last_log_message`, every externally added callback receives it. -/
def dispatchLog (j : BeamJob) (msg : JobMessagesResponse) : BeamJob :=
  { j with
    _last_log_message := some msg
    logSubscribers := j.logSubscribers.map (fun h => h ++ [msg]) }

/-- `BeamJob.cancel`: if the state is not terminal, write CANCELLING and then
CANCELLED through the setter; otherwise do nothing. -/
def cancel (j : BeamJob) : BeamJob :=
  if optIsTerminal j._state then j
  else setState (setState j .CANCELLING) .CANCELLED

/-- `BeamJob.run`, parametrised by the outcome of the opaque execution-engine
call. Inside `with JobLogHandler(self._log_callbacks)` (the handler is fresh,
so the first emitted message has id 1, and is bound to the executing thread so
its `emit` dispatches):
- engine returns: `logging.info('Successfully completed job.')` is captured
  and dispatched, then `self.state = DONE`; `run` returns normally;
- engine raises `e`: `logging.exception('Error running pipeline.')` is
  captured (its formatted text carries the exception text), dispatched, then
  `self.state = FAILED`, and the exception is re-raised (`raise`). -/
def runJob (j : BeamJob) (engine : Except String Unit) :
    BeamJob × Except String Unit :=
  match engine with
  | .ok () =>
      (setState
        (dispatchLog j
          (.message ⟨1, .JOB_MESSAGE_BASIC, "Successfully completed job."⟩))
        .DONE,
       .ok ())
  | .error e =>
      (setState
        (dispatchLog j
          (.message ⟨1, .JOB_MESSAGE_ERROR, "Error running pipeline.\n" ++ e⟩))
        .FAILED,
       .error e)

/-! ### Streams

`GetStateStream` and `GetMessageStream` are generators fed by per-subscriber
queues. We model a stream call by the state current at subscribe time and the
(finite) list of values the job broadcasts after subscription, and compute the
list of values the generator yields. A generator blocked on an empty queue has
simply yielded nothing further yet. -/

/-- The `while current_state not in TERMINAL_STATES` loop of `GetStateStream`:
starting from the last yielded state `c`, repeatedly `get` the next broadcast
state from the queue and yield it, stopping once a terminal state was yielded
(or blocking when the queue runs dry). -/
def stateStreamLoop : JobState → List JobState → List JobState
  | c, f =>
    if isTerminal c then []
    else
      match f with
      | [] => []
      | s :: rest => s :: stateStreamLoop s rest

/-- `LocalJobServicer.GetStateStream` on a found job: a fresh queue is
registered as a state-change callback, which immediately replays the current
state into it, so the first (blocking) `get` returns the subscribe-time state
`current`; it is yielded, then the loop consumes subsequent broadcasts
(`future`, in order) until a terminal state has been yielded. -/
def getStateStreamYields (current : JobState) (future : List JobState) :
    List JobState :=
  current :: stateStreamLoop current future

/-- The `while current_state not in TERMINAL_STATES` loop of
`GetMessageStream`: dequeue a message, yield it, and if it is a
`state_response` update the tracked state; stop once the tracked state is
terminal. Returns the yielded messages and the part of the queue contents not
consumed by the loop. -/
def messageStreamLoop : JobState → List JobMessagesResponse →
    List JobMessagesResponse × List JobMessagesResponse
  | c, q =>
    if isTerminal c then ([], q)
    else
      match q with
      | [] => ([], [])
      | msg :: rest =>
          let c' := match msg with
            | .state s => s
            | .message _ => c
          (msg :: (messageStreamLoop c' rest).1, (messageStreamLoop c' rest).2)

/-- `LocalJobServicer.GetMessageStream` on a found job:
1. if `job._last_log_message` exists it is yielded first;
2. a log callback and a state-change callback are registered, both feeding one
   queue; registering the state-change callback immediately replays the
   subscribe-time state into the queue, ahead of the `future` broadcasts;
3. the main loop yields queue items until a terminal `state_response` has been
   yielded (`current_state` starts as `job.state = current`);
4. the `get(block=False)` drain then yields only the items already buffered in
   the queue — `buffered` many of the items the loop did not consume. -/
def getMessageStreamYields (lastLog : Option JobMessagesResponse)
    (current : JobState) (future : List JobMessagesResponse)
    (buffered : Nat) : List JobMessagesResponse :=
  let q := JobMessagesResponse.state current :: future
  lastLog.toList ++ (messageStreamLoop current q).1
    ++ (messageStreamLoop current q).2.take buffered

/-- Whether a queue item is a `state_response` carrying a terminal state —
the condition under which the `GetMessageStream` loop stops after yielding
the item. -/
def isTerminalStateMsg : JobMessagesResponse → Bool
  | .state s => isTerminal s
  | .message _ => false

/-- The message stream exactly as the spec describes it (for comparison with
`getMessageStreamYields`, which is derived from the code): first the cached
last log event if one exists, then the subsequent events in chronological
order until a terminal state has been yielded, then a non-blocking drain of
the already-buffered events. The spec mentions no replay of the subscribe-time
state snapshot. -/
def specMessageStreamYields (lastLog : Option JobMessagesResponse)
    (current : JobState) (future : List JobMessagesResponse)
    (buffered : Nat) : List JobMessagesResponse :=
  lastLog.toList ++ (messageStreamLoop current future).1
    ++ (messageStreamLoop current future).2.take buffered

/-! ### The servicer front door

`LocalJobServicer` holds `self._jobs`, a dict from id to `BeamJob`.
`self._jobs[job_id]` on a missing key raises `KeyError` — the not-found
error surfaced to the caller. Each operation returns its result (or that
error) together with the registry it leaves behind. -/

/-- The not-found failure: Python `KeyError` on `self._jobs[...]`. -/
inductive SvcError where
  | keyError (job_id : String)
  deriving DecidableEq, Repr

/-- `self._jobs`: a dict from job id to job, as an association list. -/
def Registry := List (String × BeamJob)

/-- Dict lookup `self._jobs[job_id]` (as an `Option`). -/
def Registry.find (jobs : Registry) (job_id : String) : Option BeamJob :=
  (List.lookup job_id jobs : Option BeamJob)

/-- Dict update `self._jobs[job_id] = job` for a present key (in-place
mutation of the stored job). -/
def Registry.update (jobs : Registry) (job_id : String) (j : BeamJob) :
    Registry :=
  (jobs : List (String × BeamJob)).map
    (fun p => if p.1 = job_id then (job_id, j) else p)

/-- `LocalJobServicer.Run`: looks the job up (KeyError if absent), starts its
execution thread, and answers with the job id. The spawned thread's effect is
`runJob`, modelled separately. -/
def svcRun (jobs : Registry) (preparation_id : String) :
    Except SvcError String × Registry :=
  match jobs.find preparation_id with
  | none => (.error (.keyError preparation_id), jobs)
  | some _ => (.ok preparation_id, jobs)

/-- `LocalJobServicer.GetState`: returns the job's current state (KeyError if
the id is absent). -/
def svcGetState (jobs : Registry) (job_id : String) :
    Except SvcError (Option JobState) × Registry :=
  match jobs.find job_id with
  | none => (.error (.keyError job_id), jobs)
  | some j => (.ok j._state, jobs)

/-- `LocalJobServicer.Cancel`: `self._jobs[job_id].cancel()` then answers with
the state read back from the job (KeyError if the id is absent). -/
def svcCancel (jobs : Registry) (job_id : String) :
    Except SvcError (Option JobState) × Registry :=
  match jobs.find job_id with
  | none => (.error (.keyError job_id), jobs)
  | some j =>
      let j' := cancel j
      (.ok j'._state, jobs.update job_id j')

/-- `LocalJobServicer.GetStateStream`: KeyError if the id is absent, otherwise
the yields of `getStateStreamYields` for the job's current state and the
states broadcast after subscription. (A registry job always stores a state;
the `none` branch is unreachable for jobs built by `Prepare`.) -/
def svcGetStateStream (jobs : Registry) (job_id : String)
    (future : List JobState) : Except SvcError (List JobState) × Registry :=
  match jobs.find job_id with
  | none => (.error (.keyError job_id), jobs)
  | some j =>
      match j._state with
      | some s => (.ok (getStateStreamYields s future), jobs)
      | none => (.ok [], jobs)

/-- `LocalJobServicer.GetMessageStream`: KeyError if the id is absent,
otherwise the yields of `getMessageStreamYields` for the job's cached last
log message, current state, and post-subscription events. -/
def svcGetMessageStream (jobs : Registry) (job_id : String)
    (future : List JobMessagesResponse) (buffered : Nat) :
    Except SvcError (List JobMessagesResponse) × Registry :=
  match jobs.find job_id with
  | none => (.error (.keyError job_id), jobs)
  | some j =>
      match j._state with
      | some s =>
          (.ok (getMessageStreamYields j._last_log_message s future buffered),
           jobs)
      | none => (.ok [], jobs)

/-! ### The state setter at micro-step granularity

For the ordering guarantees of the `state` property setter we also record the
setter's individual atomic actions: one callback invocation per registered
subscriber, then the store to `self._state`. -/

/-- One atomic action of the `state` setter. -/
inductive SetterStep where
  | invoke (subscriber : Nat) (s : JobState)
  | store (s : JobState)
  deriving DecidableEq, Repr

/-- The action trace of `state.setter` on a job with `n` registered
state-change callbacks (numbered 0, 1, ... in registration order):
`for cb in self._state_change_callbacks: cb(new_state)` then
`self._state = new_state`. -/
def setStateTrace (n : Nat) (new_state : JobState) : List SetterStep :=
  (List.range n).map (fun i => .invoke i new_state) ++ [.store new_state]

/-! ### JobLogHandler -/

/-- `JobLogHandler.LOG_LEVEL_MAP`, keyed by the numeric Python logging levels
(`logging.FATAL` and `logging.CRITICAL` are both the number 50,
`logging.ERROR` is 40, `logging.WARNING` 30, `logging.INFO` 20,
`logging.DEBUG` 10). Any other key raises `KeyError`, modelled as `none`. -/
def LOG_LEVEL_MAP : Nat → Option Importance
  | 50 => some .JOB_MESSAGE_ERROR
  | 40 => some .JOB_MESSAGE_ERROR
  | 30 => some .JOB_MESSAGE_WARNING
  | 20 => some .JOB_MESSAGE_BASIC
  | 10 => some .JOB_MESSAGE_DEBUG
  | _ => none

/-- The numeric Python logging levels, by their `logging` module names. -/
def logging_DEBUG : Nat := 10
def logging_INFO : Nat := 20
def logging_WARNING : Nat := 30
def logging_ERROR : Nat := 40
def logging_CRITICAL : Nat := 50
def logging_FATAL : Nat := 50

/-- A `logging.LogRecord` as `emit` consumes it: its numeric level, its
formatted text, and the thread that produced it (Python logging runs handlers
synchronously on the emitting thread, so `threading.current_thread()` inside
`emit` is the producing thread). -/
structure LogRecord where
  levelno : Nat
  text : String
  thread : Nat
  deriving DecidableEq, Repr

/-- `JobLogHandler` state: the message-id counter `_last_id` and the thread
the handler is bound to while active (`_logged_thread`, `None` outside a
`with` scope). -/
structure JobLogHandler where
  _last_id : Nat
  _logged_thread : Option Nat
  deriving DecidableEq, Repr

/-- `JobLogHandler.__init__`: counter 0, not bound to any thread. -/
def mkHandler : JobLogHandler :=
  { _last_id := 0, _logged_thread := none }

/-- `JobLogHandler.__enter__` run on thread `tid`: remembers the current
thread in `_logged_thread`. -/
def handlerEnter (h : JobLogHandler) (tid : Nat) : JobLogHandler :=
  { h with _logged_thread := some tid }

/-- `JobLogHandler.__exit__`: clears `_logged_thread`. -/
def handlerExit (h : JobLogHandler) : JobLogHandler :=
  { h with _logged_thread := none }

/-- `JobLogHandler.emit(record)`: if `self._logged_thread` is the producing
thread, build a `JobMessagesResponse` — `message_id` from `_next_id()` (the
counter is incremented before the importance lookup, Python evaluating the
constructor's arguments left to right), `importance` from
`LOG_LEVEL_MAP[record.levelno]` (KeyError when the level is not a key), text
from `self.format(record)` — and dispatch it to every log callback. A record
from any other thread is ignored. Returns the handler's new state and either
the dispatched message (`some`), `none` for an ignored record, or the
`KeyError` (`Except.error`). -/
def emit (h : JobLogHandler) (record : LogRecord) :
    JobLogHandler × Except Unit (Option JobMessagesResponse) :=
  if h._logged_thread = some record.thread then
    let h' := { h with _last_id := h._last_id + 1 }
    match LOG_LEVEL_MAP record.levelno with
    | some imp =>
        (h', .ok (some (.message ⟨h'._last_id, imp, record.text⟩)))
    | none => (h', .error ())
  else
    (h, .ok none)

/-- `true` exactly when `emit` dispatched a message to the log callbacks. -/
def emitDispatches (h : JobLogHandler) (record : LogRecord) : Bool :=
  match (emit h record).2 with
  | .ok (some _) => true
  | _ => false

/-! ### SubprocessSdkWorker -/

/-- How far `SubprocessSdkWorker.run`'s `try` body gets: either `p.wait()`
returns and the child has exited with `returncode`, or a launcher-side
exception `err` interrupts the body, with the child possibly still alive when
the `finally` block polls it. (When `wait` returned, `p.poll()` is the exit
code, never `None`.) -/
inductive WaitOutcome where
  | exited (returncode : Int)
  | raised (err : String) (childAlive : Bool)
  deriving DecidableEq, Repr

/-- The observable outcome of `SubprocessSdkWorker.run`: what the call
returns or raises, whether the `finally` block killed the child
(`p.poll() is None` implies `p.kill()`), and whether it stopped the logging
server (`logging_server.stop(0)`, run unconditionally). -/
structure WorkerRunResult where
  result : Except String Unit
  killedChild : Bool
  loggingStopped : Bool
  deriving DecidableEq, Repr

/-- `SubprocessSdkWorker.run` after the logging server and subprocess are
stood up: `p.wait()`; a non-zero `p.returncode` raises
`RuntimeError('Worker subprocess exited with return code %s' % returncode)`;
the `finally` block kills the child if `p.poll()` is `None` (only possible on
the exception path) and always stops the logging server; an exception from
the body propagates out after the `finally` block. -/
def subprocessSdkWorkerRun (outcome : WaitOutcome) : WorkerRunResult :=
  match outcome with
  | .exited returncode =>
      { result :=
          if returncode ≠ 0 then
            .error ("Worker subprocess exited with return code "
              ++ toString returncode)
          else .ok ()
        killedChild := false
        loggingStopped := true }
  | .raised err childAlive =>
      { result := .error err
        killedChild := childAlive
        loggingStopped := true }

/-! ## Theorems -/

/-- `cancel` leaves a terminal job untouched. -/
lemma cancel_of_terminal (j : BeamJob) (h : optIsTerminal j._state = true) :
    cancel j = j := by
  simp [cancel, h]

/-- After `setState`, the stored state is the written state. -/
lemma setState_state (j : BeamJob) (s : JobState) :
    (setState j s)._state = some s := rfl

/-- **C1 (counterexample).** A cancelled job is terminal, yet its execution
unit's `run` still records a transition when the engine call returns: the
stored state changes from CANCELLED to DONE, so the claim that no operation
records a further transition after the first terminal state is false. -/
theorem c1_terminal_overwritten_by_run :
    optIsTerminal (cancel (mkJob "job"))._state = true
    ∧ (runJob (cancel (mkJob "job")) (.ok ())).1._state = some .DONE
    ∧ (runJob (cancel (mkJob "job")) (.ok ())).1._state
        ≠ (cancel (mkJob "job"))._state := by
  decide

/-- **C1 (amended).** Once a job's state is terminal, `cancel` records no
further transition (the job, its stored state and every subscriber history
included, is unchanged); `run`, however, is unguarded: when the engine call
finishes it records DONE (or FAILED on an engine failure) even though the job
is already terminal. -/
theorem c1_amended (j : BeamJob) (h : optIsTerminal j._state = true) :
    cancel j = j
    ∧ (runJob j (.ok ())).1._state = some .DONE
    ∧ ∀ e, (runJob j (.error e)).1._state = some .FAILED := by
  refine ⟨cancel_of_terminal j h, rfl, fun e => rfl⟩

/-- Witness for `c1_amended` at a concretely cancelled job. -/
theorem c1_amended_wit :
    cancel (cancel (mkJob "w1")) = cancel (mkJob "w1")
    ∧ (runJob (cancel (mkJob "w1")) (.ok ())).1._state = some .DONE
    ∧ ∀ e, (runJob (cancel (mkJob "w1")) (.error e)).1._state
        = some .FAILED :=
  c1_amended (cancel (mkJob "w1")) (by decide)

/-- **C3 (counterexample).** On a job with one state subscriber (whose history
starts with the replayed STARTING), calling `cancel` twice yields CANCELLED
both times, but the first call broadcasts two states — CANCELLING and then
CANCELLED — so across the two calls the subscriber receives two new
broadcasts, not one. -/
theorem c3_two_broadcasts :
    (cancel (add_state_change_callback (mkJob "j")))._state = some .CANCELLED
    ∧ (cancel (cancel (add_state_change_callback (mkJob "j"))))._state
        = some .CANCELLED
    ∧ (cancel (cancel (add_state_change_callback (mkJob "j")))).stateSubscribers
        = [[.STARTING, .CANCELLING, .CANCELLED]]
    ∧ (cancel (cancel (add_state_change_callback (mkJob "j")))).stateSubscribers
        ≠ [[.STARTING, .CANCELLED]] := by
  decide

/-- **C3 (amended).** Calling `cancel` twice on a non-terminal job yields
CANCELLED both times and the second call is a complete no-op (nothing is
broadcast by it); but the first call emits exactly two state broadcasts to
every state subscriber, CANCELLING and then CANCELLED, not one. `cancel` on a
terminal job is a no-op that changes nothing and broadcasts nothing. -/
theorem c3_amended :
    (∀ j : BeamJob, optIsTerminal j._state = false →
      (cancel j)._state = some .CANCELLED
      ∧ (cancel (cancel j))._state = some .CANCELLED
      ∧ cancel (cancel j) = cancel j
      ∧ (cancel j).stateSubscribers
          = j.stateSubscribers.map (fun h => h ++ [.CANCELLING, .CANCELLED]))
    ∧ (∀ j : BeamJob, optIsTerminal j._state = true → cancel j = j) := by
  constructor
  · intro j h
    have hc : cancel j = setState (setState j .CANCELLING) .CANCELLED := by
      simp [cancel, h]
    refine ⟨by rw [hc]; rfl, ?_, ?_, ?_⟩
    · rw [hc, cancel_of_terminal _ (by rfl)]; rfl
    · rw [hc, cancel_of_terminal _ (by rfl)]
    · rw [hc]
      simp [setState, List.map_map]
  · intro j h
    exact cancel_of_terminal j h

/-- Witness for `c3_amended` on a job with one subscriber (non-terminal case)
and on a cancelled job (terminal case). -/
theorem c3_amended_wit :
    ((cancel (add_state_change_callback (mkJob "w3")))._state = some .CANCELLED
      ∧ (cancel (cancel (add_state_change_callback (mkJob "w3"))))._state
          = some .CANCELLED
      ∧ cancel (cancel (add_state_change_callback (mkJob "w3")))
          = cancel (add_state_change_callback (mkJob "w3"))
      ∧ (cancel (add_state_change_callback (mkJob "w3"))).stateSubscribers
          = (add_state_change_callback (mkJob "w3")).stateSubscribers.map
              (fun h => h ++ [.CANCELLING, .CANCELLED]))
    ∧ cancel (cancel (mkJob "w3")) = cancel (mkJob "w3") :=
  ⟨c3_amended.1 (add_state_change_callback (mkJob "w3")) (by decide),
   c3_amended.2 (cancel (mkJob "w3")) (by decide)⟩

/-- **C4.** When the execution engine call raises, the execution unit `run`
sets the job state to FAILED, captures the failure as a log event whose text
ends with the failure text — so the failure text is present in the job's
cached last log message — dispatches that event to every log subscriber, and
re-raises the exception out of the execution unit. -/
theorem c4_run_failure (j : BeamJob) (e : String) :
    (runJob j (.error e)).1._state = some .FAILED
    ∧ (runJob j (.error e)).2 = .error e
    ∧ (∃ m : JobMessage,
        (runJob j (.error e)).1._last_log_message = some (.message m)
        ∧ m.importance = .JOB_MESSAGE_ERROR
        ∧ ∃ p, m.message_text = p ++ e)
    ∧ (runJob j (.error e)).1.logSubscribers
        = j.logSubscribers.map (fun h =>
            h ++ [.message ⟨1, .JOB_MESSAGE_ERROR,
                            "Error running pipeline.\n" ++ e⟩]) := by
  refine ⟨rfl, rfl, ⟨⟨1, .JOB_MESSAGE_ERROR, "Error running pipeline.\n" ++ e⟩,
    rfl, rfl, "Error running pipeline.\n", rfl⟩, rfl⟩

/-- **C5.** Every per-job servicer operation — `Run`, `GetState`, `Cancel`,
`GetStateStream`, `GetMessageStream` — on a job id absent from the registry
fails with the not-found error (`KeyError`) carrying that id, and returns the
registry unchanged. -/
theorem c5_unknown_id (jobs : Registry) (id : String)
    (h : jobs.find id = none) :
    svcRun jobs id = (.error (.keyError id), jobs)
    ∧ svcGetState jobs id = (.error (.keyError id), jobs)
    ∧ svcCancel jobs id = (.error (.keyError id), jobs)
    ∧ (∀ future, svcGetStateStream jobs id future
        = (.error (.keyError id), jobs))
    ∧ (∀ future buffered, svcGetMessageStream jobs id future buffered
        = (.error (.keyError id), jobs)) := by
  refine ⟨?_, ?_, ?_, ?_, ?_⟩ <;>
    simp [svcRun, svcGetState, svcCancel, svcGetStateStream,
      svcGetMessageStream, h]

/-- Witness for `c5_unknown_id`: a one-job registry queried with an id it
does not contain. -/
theorem c5_unknown_id_wit :
    svcRun [("known", mkJob "known")] "missing"
        = (.error (.keyError "missing"), [("known", mkJob "known")])
    ∧ svcGetState [("known", mkJob "known")] "missing"
        = (.error (.keyError "missing"), [("known", mkJob "known")])
    ∧ svcCancel [("known", mkJob "known")] "missing"
        = (.error (.keyError "missing"), [("known", mkJob "known")])
    ∧ (∀ future, svcGetStateStream [("known", mkJob "known")] "missing" future
        = (.error (.keyError "missing"), [("known", mkJob "known")]))
    ∧ (∀ future buffered,
        svcGetMessageStream [("known", mkJob "known")] "missing" future buffered
        = (.error (.keyError "missing"), [("known", mkJob "known")])) :=
  c5_unknown_id [("known", mkJob "known")] "missing" (by decide)

/-- The state-stream loop yields nothing when the last yielded state was
already terminal. -/
lemma stateStreamLoop_of_terminal (c : JobState) (f : List JobState)
    (h : isTerminal c = true) : stateStreamLoop c f = [] := by
  cases f <;> simp [stateStreamLoop, h]

/-- As long as no broadcast state is terminal, the state-stream loop yields
all of them, in order. -/
lemma stateStreamLoop_no_terminal : ∀ (f : List JobState) (c : JobState),
    isTerminal c = false → (∀ s ∈ f, isTerminal s = false) →
    stateStreamLoop c f = f := by
  intro f
  induction f with
  | nil => intro c hc _; simp [stateStreamLoop, hc]
  | cons s rest ih =>
      intro c hc hf
      have hs : isTerminal s = false := hf s (by simp)
      simp only [stateStreamLoop, hc, Bool.false_eq_true, if_false]
      rw [ih s hs (fun x hx => hf x (List.mem_cons_of_mem _ hx))]

/-- The state-stream loop yields exactly the broadcasts up to and including
the first terminal one. -/
lemma stateStreamLoop_finds_terminal : ∀ (f₁ : List JobState)
    (c t : JobState) (f₂ : List JobState),
    isTerminal c = false → (∀ s ∈ f₁, isTerminal s = false) →
    isTerminal t = true →
    stateStreamLoop c (f₁ ++ t :: f₂) = f₁ ++ [t] := by
  intro f₁
  induction f₁ with
  | nil =>
      intro c t f₂ hc _ ht
      simp only [List.nil_append, stateStreamLoop, hc, Bool.false_eq_true,
        if_false]
      rw [stateStreamLoop_of_terminal t f₂ ht]
  | cons s rest ih =>
      intro c t f₂ hc hf ht
      have hs : isTerminal s = false := hf s (by simp)
      simp only [List.cons_append, stateStreamLoop, hc, Bool.false_eq_true,
        if_false, List.append_eq]
      rw [ih s t f₂ hs (fun x hx => hf x (List.mem_cons_of_mem _ hx)) ht]

/-- **C6.** `GetStateStream` immediately yields the state snapshot current at
subscribe time; when that snapshot is terminal the stream is just that
snapshot; otherwise it yields every subsequently broadcast state in order
while none is terminal, and stops exactly after yielding the first terminal
broadcast — no snapshot is yielded after a terminal one. -/
theorem c6_state_stream (current : JobState) (future : List JobState) :
    (getStateStreamYields current future).head? = some current
    ∧ (isTerminal current = true →
        getStateStreamYields current future = [current])
    ∧ (isTerminal current = false →
        ((∀ s ∈ future, isTerminal s = false) →
            getStateStreamYields current future = current :: future)
        ∧ (∀ f₁ t f₂, future = f₁ ++ t :: f₂ →
            (∀ s ∈ f₁, isTerminal s = false) → isTerminal t = true →
              getStateStreamYields current future
                = current :: (f₁ ++ [t]))) := by
  refine ⟨rfl, ?_, ?_⟩
  · intro h
    unfold getStateStreamYields
    rw [stateStreamLoop_of_terminal current future h]
  · intro hc
    constructor
    · intro hf
      unfold getStateStreamYields
      rw [stateStreamLoop_no_terminal future current hc hf]
    · intro f₁ t f₂ heq hf₁ ht
      subst heq
      unfold getStateStreamYields
      rw [stateStreamLoop_finds_terminal f₁ current t f₂ hc hf₁ ht]

/-- Witness for `c6_state_stream`: a subscriber attaching while RUNNING sees
RUNNING, then the broadcasts through the first terminal DONE and nothing
after it; a subscriber attaching after DONE sees only DONE. -/
theorem c6_state_stream_wit :
    getStateStreamYields .RUNNING [.CANCELLING, .DONE, .FAILED]
        = [.RUNNING, .CANCELLING, .DONE]
    ∧ getStateStreamYields .DONE [.FAILED] = [.DONE] :=
  ⟨((c6_state_stream .RUNNING [.CANCELLING, .DONE, .FAILED]).2.2
      (by decide)).2 [.CANCELLING] .DONE [.FAILED] rfl (by decide) (by decide),
   (c6_state_stream .DONE [.FAILED]).2.1 (by decide)⟩

/-- The message-stream loop yields nothing (and consumes nothing) when the
tracked state is already terminal. -/
lemma messageStreamLoop_of_terminal (c : JobState)
    (q : List JobMessagesResponse) (h : isTerminal c = true) :
    messageStreamLoop c q = ([], q) := by
  cases q <;> simp [messageStreamLoop, h]

/-- As long as no queued item is a terminal `state_response`, the
message-stream loop yields the whole queue, in order. -/
lemma messageStreamLoop_no_terminal : ∀ (q : List JobMessagesResponse)
    (c : JobState), isTerminal c = false →
    (∀ m ∈ q, isTerminalStateMsg m = false) →
    messageStreamLoop c q = (q, []) := by
  intro q
  induction q with
  | nil => intro c hc _; simp [messageStreamLoop, hc]
  | cons msg rest ih =>
      intro c hc hq
      have hm : isTerminalStateMsg msg = false := hq msg (by simp)
      have hrest : ∀ m ∈ rest, isTerminalStateMsg m = false :=
        fun x hx => hq x (List.mem_cons_of_mem _ hx)
      cases msg with
      | message m =>
          simp only [messageStreamLoop, hc, Bool.false_eq_true, if_false]
          rw [ih c hc hrest]
      | state s =>
          have hs : isTerminal s = false := by
            simpa [isTerminalStateMsg] using hm
          simp only [messageStreamLoop, hc, Bool.false_eq_true, if_false]
          rw [ih s hs hrest]

/-- The message-stream loop yields exactly the queue items up to and
including the first terminal `state_response`, leaving the rest in the
queue. -/
lemma messageStreamLoop_finds_terminal : ∀ (q₁ : List JobMessagesResponse)
    (c s : JobState) (q₂ : List JobMessagesResponse),
    isTerminal c = false → (∀ m ∈ q₁, isTerminalStateMsg m = false) →
    isTerminal s = true →
    messageStreamLoop c (q₁ ++ .state s :: q₂) = (q₁ ++ [.state s], q₂) := by
  intro q₁
  induction q₁ with
  | nil =>
      intro c s q₂ hc _ hs
      simp only [List.nil_append, messageStreamLoop, hc, Bool.false_eq_true,
        if_false]
      rw [messageStreamLoop_of_terminal s q₂ hs]
  | cons msg rest ih =>
      intro c s q₂ hc hq hs
      have hm : isTerminalStateMsg msg = false := hq msg (by simp)
      have hrest : ∀ m ∈ rest, isTerminalStateMsg m = false :=
        fun x hx => hq x (List.mem_cons_of_mem _ hx)
      cases msg with
      | message m =>
          simp only [List.cons_append, messageStreamLoop, hc,
            Bool.false_eq_true, if_false, List.append_eq]
          rw [ih c s q₂ hc hrest hs]
      | state s' =>
          have hs' : isTerminal s' = false := by
            simpa [isTerminalStateMsg] using hm
          simp only [List.cons_append, messageStreamLoop, hc,
            Bool.false_eq_true, if_false, List.append_eq]
          rw [ih s' s q₂ hs' hrest hs]

/-- **C2 (counterexample).** On a job with no cached log message, in state
STARTING, whose only post-subscription event is the DONE transition,
`GetMessageStream` yields the replayed subscribe-time state snapshot
(STARTING) before the DONE transition, whereas the stream the claim describes
consists of the subsequent events only — so the claimed yield sequence is
wrong. -/
theorem c2_message_stream_cex :
    getMessageStreamYields none .STARTING [.state .DONE] 0
        = [.state .STARTING, .state .DONE]
    ∧ specMessageStreamYields none .STARTING [.state .DONE] 0
        = [.state .DONE]
    ∧ getMessageStreamYields none .STARTING [.state .DONE] 0
        ≠ specMessageStreamYields none .STARTING [.state .DONE] 0 := by
  decide

/-- **C2 (amended).** `GetMessageStream` first yields the job's cached last
log event if one exists (also when the job is already terminal at subscribe
time); it additionally yields a replay of the state snapshot current at
subscribe time, queued ahead of all subsequent events; after the cached log
event it yields that replay and then every subsequent log event and state
transition in chronological order, stopping once a terminal state has been
yielded, and after the terminal state it drains only the `buffered` events
already in the queue, without blocking. When the job is terminal at subscribe
time the loop is skipped and the non-blocking drain yields only what is
buffered (the replayed snapshot first). -/
theorem c2_message_stream_amended (lastLog : Option JobMessagesResponse)
    (current : JobState) (future : List JobMessagesResponse)
    (buffered : Nat) :
    (∀ m, lastLog = some m →
      (getMessageStreamYields lastLog current future buffered).head? = some m)
    ∧ (isTerminal current = false →
        ((∀ m ∈ future, isTerminalStateMsg m = false) →
          getMessageStreamYields lastLog current future buffered
            = lastLog.toList ++ .state current :: future)
        ∧ (∀ f₁ s f₂, future = f₁ ++ .state s :: f₂ →
            (∀ m ∈ f₁, isTerminalStateMsg m = false) → isTerminal s = true →
              getMessageStreamYields lastLog current future buffered
                = lastLog.toList
                    ++ (.state current :: (f₁ ++ [.state s]))
                    ++ f₂.take buffered))
    ∧ (isTerminal current = true →
        getMessageStreamYields lastLog current future buffered
          = lastLog.toList
              ++ (JobMessagesResponse.state current :: future).take buffered)
    := by
  refine ⟨?_, ?_, ?_⟩
  · intro m hm
    subst hm
    simp [getMessageStreamYields]
  · intro hc
    constructor
    · intro hf
      simp only [getMessageStreamYields]
      rw [messageStreamLoop_no_terminal (.state current :: future) current hc
        (by
          intro m hm
          rcases List.mem_cons.mp hm with h | h
          · subst h; simpa [isTerminalStateMsg] using hc
          · exact hf m h)]
      simp
    · intro f₁ s f₂ heq hf₁ hs
      subst heq
      simp only [getMessageStreamYields]
      have : JobMessagesResponse.state current :: (f₁ ++ .state s :: f₂)
          = (JobMessagesResponse.state current :: f₁) ++ .state s :: f₂ := by
        simp
      rw [this, messageStreamLoop_finds_terminal
        (.state current :: f₁) current s f₂ hc
        (by
          intro m hm
          rcases List.mem_cons.mp hm with h | h
          · subst h; simpa [isTerminalStateMsg] using hc
          · exact hf₁ m h) hs]
      simp
  · intro hc
    simp only [getMessageStreamYields]
    rw [messageStreamLoop_of_terminal current
      (.state current :: future) hc]
    simp

/-- Witness for `c2_message_stream_amended`: the cached failure message is
yielded first on an already-FAILED job; a subscriber on a RUNNING job sees the
replayed RUNNING snapshot, then the log event and the DONE transition, and
nothing more; a fully buffered drain on a FAILED job yields the cached log
then the replayed terminal snapshot. -/
theorem c2_message_stream_amended_wit :
    (getMessageStreamYields
        (some (.message ⟨1, .JOB_MESSAGE_ERROR, "boom"⟩)) .FAILED [] 5).head?
      = some (.message ⟨1, .JOB_MESSAGE_ERROR, "boom"⟩)
    ∧ getMessageStreamYields none .RUNNING
        [.message ⟨1, .JOB_MESSAGE_BASIC, "hi"⟩, .state .DONE] 0
      = [.state .RUNNING, .message ⟨1, .JOB_MESSAGE_BASIC, "hi"⟩,
         .state .DONE]
    ∧ getMessageStreamYields
        (some (.message ⟨1, .JOB_MESSAGE_ERROR, "boom"⟩)) .FAILED [] 5
      = [.message ⟨1, .JOB_MESSAGE_ERROR, "boom"⟩, .state .FAILED] :=
  ⟨(c2_message_stream_amended
      (some (.message ⟨1, .JOB_MESSAGE_ERROR, "boom"⟩)) .FAILED [] 5).1
      (.message ⟨1, .JOB_MESSAGE_ERROR, "boom"⟩) rfl,
   ((c2_message_stream_amended none .RUNNING
      [.message ⟨1, .JOB_MESSAGE_BASIC, "hi"⟩, .state .DONE] 0).2.1
      (by decide)).2 [.message ⟨1, .JOB_MESSAGE_BASIC, "hi"⟩] .DONE [] rfl
      (by decide) (by decide),
   (c2_message_stream_amended
      (some (.message ⟨1, .JOB_MESSAGE_ERROR, "boom"⟩)) .FAILED [] 5).2.2
      (by decide)⟩

/-- **C7.** The `state` setter on a job with `n` registered state-change
callbacks performs exactly `n + 1` atomic actions: the callback invocations,
each with the new state, occupy positions `0 ... n-1` in registration order,
and the store to `self._state` is the final action at position `n` — so every
subscriber is invoked with the new state, in registration order, before the
stored state field is updated. A subscriber registering while the job already
holds a state is immediately invoked exactly once, with that current state. -/
theorem c7_setter_order (n : Nat) (s : JobState) :
    (setStateTrace n s).length = n + 1
    ∧ (∀ i, i < n → (setStateTrace n s)[i]? = some (.invoke i s))
    ∧ (setStateTrace n s)[n]? = some (.store s)
    ∧ (∀ (j : BeamJob) (st : JobState), j._state = some st →
        (add_state_change_callback j).stateSubscribers
          = j.stateSubscribers ++ [[st]]) := by
  refine ⟨by simp [setStateTrace], ?_, ?_, ?_⟩
  · intro i hi
    rw [setStateTrace, List.getElem?_append]
    simp [hi, List.getElem?_map, List.getElem?_range]
  · rw [setStateTrace, List.getElem?_append]
    simp
  · intro j st h
    simp [add_state_change_callback, h]

/-- Witness for `c7_setter_order` with two subscribers: both invocations
precede the store, in registration order, and a subscriber registering on a
freshly prepared job is immediately replayed STARTING once. -/
theorem c7_setter_order_wit :
    (setStateTrace 2 .RUNNING).length = 3
    ∧ (setStateTrace 2 .RUNNING)[0]? = some (.invoke 0 .RUNNING)
    ∧ (setStateTrace 2 .RUNNING)[1]? = some (.invoke 1 .RUNNING)
    ∧ (setStateTrace 2 .RUNNING)[2]? = some (.store .RUNNING)
    ∧ (add_state_change_callback (mkJob "w7")).stateSubscribers
        = [[.STARTING]] :=
  ⟨(c7_setter_order 2 .RUNNING).1,
   (c7_setter_order 2 .RUNNING).2.1 0 (by decide),
   (c7_setter_order 2 .RUNNING).2.1 1 (by decide),
   (c7_setter_order 2 .RUNNING).2.2.1,
   (c7_setter_order 2 .RUNNING).2.2.2 (mkJob "w7") .STARTING rfl⟩

/-- `emit` dispatches a message exactly when the handler is bound to the
record's producing thread and the record's level is a key of
`LOG_LEVEL_MAP`. -/
lemma emitDispatches_iff (h : JobLogHandler) (r : LogRecord) :
    emitDispatches h r = true ↔
      (h._logged_thread = some r.thread
        ∧ (LOG_LEVEL_MAP r.levelno).isSome = true) := by
  unfold emitDispatches emit
  by_cases hc : h._logged_thread = some r.thread
  · cases hm : LOG_LEVEL_MAP r.levelno <;> simp [hc, hm]
  · simp [hc]

/-- On a thread other than the bound one, `emit` does nothing at all. -/
lemma emit_other_thread (h : JobLogHandler) (r : LogRecord)
    (hne : ¬ h._logged_thread = some r.thread) :
    emit h r = (h, .ok none) := by
  simp [emit, hne]

/-- **C8 (counterexample).** A handler bound to thread 0 receives a record
produced on that same bound thread but carrying the non-standard level 25:
the claim says `emit` dispatches it, yet the code raises `KeyError` from the
severity-map lookup and delivers nothing — so "dispatches if and only if
produced on the bound thread" fails in the "if" direction. -/
theorem c8_bound_thread_not_sufficient :
    (handlerEnter mkHandler 0)._logged_thread
        = some (LogRecord.mk 25 "custom level record" 0).thread
    ∧ emitDispatches (handlerEnter mkHandler 0) ⟨25, "custom level record", 0⟩
        = false
    ∧ (emit (handlerEnter mkHandler 0) ⟨25, "custom level record", 0⟩).2
        = .error () := by
  refine ⟨rfl, rfl, rfl⟩

/-- **C8 (amended).** While a handler is bound to a thread: a record produced
on any other thread is ignored entirely (no dispatch, no state change, no
error); a dispatch can only happen for a record produced on the bound thread;
and a record produced on the bound thread is dispatched provided its level
is a key of the severity map (otherwise the lookup raises `KeyError`).
Consequently two handlers bound to distinct threads never both see a record:
whatever record one dispatches, the other ignores — no log event produced by
one job's execution thread is delivered through another job's handler. -/
theorem c8_amended (h : JobLogHandler) (tid : Nat) (r : LogRecord)
    (hb : h._logged_thread = some tid) :
    (r.thread ≠ tid → emit h r = (h, .ok none))
    ∧ (emitDispatches h r = true → r.thread = tid)
    ∧ (r.thread = tid → (LOG_LEVEL_MAP r.levelno).isSome = true →
        emitDispatches h r = true)
    ∧ (∀ (h₂ : JobLogHandler) (tid₂ : Nat),
        h₂._logged_thread = some tid₂ → tid₂ ≠ tid →
        emitDispatches h r = true → emitDispatches h₂ r = false) := by
  refine ⟨?_, ?_, ?_, ?_⟩
  · intro hne
    exact emit_other_thread h r (by
      rw [hb]
      simp
      exact fun he => absurd he.symm hne)
  · intro hd
    have := (emitDispatches_iff h r).mp hd
    rw [hb] at this
    exact (Option.some.injEq _ _ ▸ this.1).symm
  · intro ht hl
    exact (emitDispatches_iff h r).mpr ⟨by rw [hb, ht], hl⟩
  · intro h₂ tid₂ hb₂ hne hd
    have h1 : r.thread = tid := by
      have := (emitDispatches_iff h r).mp hd
      rw [hb] at this
      exact (Option.some.injEq _ _ ▸ this.1).symm
    rcases hd2 : emitDispatches h₂ r with _ | _
    · rfl
    · exfalso
      have := (emitDispatches_iff h₂ r).mp hd2
      rw [hb₂] at this
      have h2 : r.thread = tid₂ :=
        (Option.some.injEq _ _ ▸ this.1).symm
      exact hne (h2 ▸ h1)

/-- Witness for `c8_amended`: a handler bound to thread 3 ignores a record
from thread 5, dispatches an ERROR-level record from thread 3, and a second
handler bound to thread 7 does not dispatch that same record. -/
theorem c8_amended_wit :
    emit (handlerEnter mkHandler 3) ⟨40, "cross", 5⟩
        = (handlerEnter mkHandler 3, .ok none)
    ∧ emitDispatches (handlerEnter mkHandler 3) ⟨40, "own", 3⟩ = true
    ∧ emitDispatches (handlerEnter mkHandler 7) ⟨40, "own", 3⟩ = false :=
  ⟨(c8_amended (handlerEnter mkHandler 3) 3 ⟨40, "cross", 5⟩ rfl).1
      (by decide),
   (c8_amended (handlerEnter mkHandler 3) 3 ⟨40, "own", 3⟩ rfl).2.2.1
      rfl (by decide),
   (c8_amended (handlerEnter mkHandler 3) 3 ⟨40, "own", 3⟩ rfl).2.2.2
      (handlerEnter mkHandler 7) 7 rfl (by decide)
      ((c8_amended (handlerEnter mkHandler 3) 3 ⟨40, "own", 3⟩ rfl).2.2.1
        rfl (by decide))⟩

/-- **C9.** `SubprocessSdkWorker.run` always stops the logging server, on
every exit path; when the child exits with a non-zero code the launcher
raises a `RuntimeError` whose text references exactly that exit code, and the
exited child is not killed (it is no longer alive); when the child exits 0
the call returns normally; and on a launcher-side exception the exception
propagates, the child is killed exactly when it is still alive at the
`finally` block, and the logging server is still stopped. -/
theorem c9_worker_run (o : WaitOutcome) :
    (subprocessSdkWorkerRun o).loggingStopped = true
    ∧ (∀ rc : Int, o = .exited rc → rc ≠ 0 →
        (subprocessSdkWorkerRun o).result
          = .error ("Worker subprocess exited with return code "
              ++ toString rc))
    ∧ (o = .exited 0 → (subprocessSdkWorkerRun o).result = .ok ())
    ∧ (∀ rc : Int, o = .exited rc →
        (subprocessSdkWorkerRun o).killedChild = false)
    ∧ (∀ (e : String) (alive : Bool), o = .raised e alive →
        (subprocessSdkWorkerRun o).killedChild = alive
        ∧ (subprocessSdkWorkerRun o).result = .error e) := by
  cases o with
  | exited rc =>
      refine ⟨rfl, ?_, ?_, ?_, ?_⟩
      · intro rc' heq hne
        injection heq with h
        subst h
        simp [subprocessSdkWorkerRun, hne]
      · intro heq
        injection heq with h
        subst h
        simp [subprocessSdkWorkerRun]
      · intro rc' _
        rfl
      · intro e alive heq
        exact absurd heq (by simp)
  | raised e alive =>
      refine ⟨rfl, ?_, ?_, ?_, ?_⟩
      · intro rc heq _
        exact absurd heq (by simp)
      · intro heq
        exact absurd heq (by simp)
      · intro rc heq
        exact absurd heq (by simp)
      · intro e' alive' heq
        injection heq with h1 h2
        subst h1
        subst h2
        exact ⟨rfl, rfl⟩

/-- Witness for `c9_worker_run`: the spec's test scenario — the child exits
with code 7, the launcher's error references code 7, the logging server is
stopped — and a launcher-side exception with a still-alive child, which is
killed while the logging server is again stopped. -/
theorem c9_worker_run_wit :
    (subprocessSdkWorkerRun (.exited 7)).loggingStopped = true
    ∧ (subprocessSdkWorkerRun (.exited 7)).result
        = .error ("Worker subprocess exited with return code "
            ++ toString (7 : Int))
    ∧ (subprocessSdkWorkerRun (.exited 7)).killedChild = false
    ∧ (subprocessSdkWorkerRun (.raised "KeyboardInterrupt" true)).killedChild
        = true
    ∧ (subprocessSdkWorkerRun
        (.raised "KeyboardInterrupt" true)).loggingStopped = true :=
  ⟨(c9_worker_run (.exited 7)).1,
   (c9_worker_run (.exited 7)).2.1 7 rfl (by decide),
   (c9_worker_run (.exited 7)).2.2.2.1 7 rfl,
   ((c9_worker_run (.raised "KeyboardInterrupt" true)).2.2.2.2
      "KeyboardInterrupt" true rfl).1,
   (c9_worker_run (.raised "KeyboardInterrupt" true)).1⟩

/-- The severity map has a value exactly for the numeric levels of the six
standard `logging` level names (five distinct numbers, `FATAL` and
`CRITICAL` both being 50). -/
lemma LOG_LEVEL_MAP_isSome_iff (n : Nat) :
    (LOG_LEVEL_MAP n).isSome = true ↔
      n ∈ ([logging_DEBUG, logging_INFO, logging_WARNING, logging_ERROR,
            logging_CRITICAL, logging_FATAL] : List Nat) := by
  constructor
  · intro hs
    unfold LOG_LEVEL_MAP at hs
    split at hs <;>
      simp_all [logging_DEBUG, logging_INFO, logging_WARNING,
        logging_ERROR, logging_CRITICAL, logging_FATAL]
  · intro hn
    simp only [logging_DEBUG, logging_INFO, logging_WARNING, logging_ERROR,
      logging_CRITICAL, logging_FATAL, List.mem_cons,
      List.not_mem_nil, or_false] at hn
    rcases hn with h | h | h | h | h | h <;> subst h <;> rfl

/-- **C10.** For a record produced on the thread a handler is bound to,
`emit` dispatches a message if and only if the record's `levelno` is the
numeric level of one of the six standard logging levels (DEBUG, INFO,
WARNING, ERROR, CRITICAL, FATAL — five distinct numbers, FATAL and CRITICAL
coinciding); for any other `levelno` the `LOG_LEVEL_MAP` lookup fails with a
`KeyError` instead of delivering a log event. -/
theorem c10_emit_level_domain (h : JobLogHandler) (tid : Nat) (r : LogRecord)
    (hb : h._logged_thread = some tid) (ht : r.thread = tid) :
    (emitDispatches h r = true ↔
      r.levelno ∈ ([logging_DEBUG, logging_INFO, logging_WARNING,
        logging_ERROR, logging_CRITICAL, logging_FATAL] : List Nat))
    ∧ (r.levelno ∉ ([logging_DEBUG, logging_INFO, logging_WARNING,
        logging_ERROR, logging_CRITICAL, logging_FATAL] : List Nat) →
        (emit h r).2 = .error ()) := by
  have hthread : h._logged_thread = some r.thread := by rw [hb, ht]
  constructor
  · rw [emitDispatches_iff, LOG_LEVEL_MAP_isSome_iff]
    simp [hthread]
  · intro hn
    have hnone : LOG_LEVEL_MAP r.levelno = none := by
      rcases hv : LOG_LEVEL_MAP r.levelno with _ | v
      · rfl
      · exact absurd ((LOG_LEVEL_MAP_isSome_iff r.levelno).mp
          (by simp [hv])) hn
    simp [emit, hthread, hnone]

/-- Witness for `c10_emit_level_domain`: on the bound thread, an ERROR-level
(40) record is dispatched while a level-25 record hits the `KeyError`. -/
theorem c10_emit_level_domain_wit :
    emitDispatches (handlerEnter mkHandler 0) ⟨40, "standard", 0⟩ = true
    ∧ (emit (handlerEnter mkHandler 0) ⟨25, "nonstandard", 0⟩).2
        = .error () :=
  ⟨(c10_emit_level_domain (handlerEnter mkHandler 0) 0 ⟨40, "standard", 0⟩
      rfl rfl).1.mpr (by decide),
   (c10_emit_level_domain (handlerEnter mkHandler 0) 0 ⟨25, "nonstandard", 0⟩
      rfl rfl).2 (by decide)⟩

end LocalJobService
